import Mathlib

/-!
Verification of the pyfluent-examples corpus against its specification.

The repository is a corpus of linear Python scripts driving a remote CFD
solver.  The scripts' own computations (a PID control loop, DOE parameter
sweeps filling result matrices, a picture-resizing helper, event ordering
around futures, and the corpus-wide inventory of exception handlers and
async decorators) are embedded shallowly below: Python floats are modelled
as exact rationals, remote report computations as oracle functions, and the
scripts' interactions with the solver as explicit event traces.
-/

namespace GravitySeparatorPID

/-! Embedding of
`examples/011-Gravity-Separator-PID-Sravan-Kumar/gravitySeparatorPID.py`.
The measured water levels returned by the remote solver on each pass are an
oracle `levels : ℕ → ℚ`; the measured initial outlet pressure is
`initial_outlet_pressure : ℚ`. -/

def pid_kp : ℚ := 2
def pid_ti : ℚ := 1/100
def pid_td : ℚ := 1
def desired_water_level : ℚ := 6
def pid_update_frequency : ℕ := 5
def total_iterations : ℕ := 50
def delta_t : ℚ := 1

/-- `n = int(total_iterations / pid_update_frequency)` -/
def n : ℕ := total_iterations / pid_update_frequency

/-- The mutable loop state: `integral_error` and `error_old`
(`deriv_error` is recomputed each pass before use, so it is not state). -/
structure PIDState where
  integral_error : ℚ
  error_old : ℚ
deriving Repr, DecidableEq

/-- State before the loop: `integral_error = 0`, `error_old = 0`. -/
def initState : PIDState := ⟨0, 0⟩

/-- One pass of the control loop body, given the water level measured on
this pass: updates the state and returns the `control_value` assigned to
the `water_outlet` gauge pressure. -/
def pidStep (initial_outlet_pressure : ℚ) (s : PIDState) (level : ℚ) :
    PIDState × ℚ :=
  let error := desired_water_level - level
  let integral_error := s.integral_error + error * delta_t
  let deriv_error := (error - s.error_old) / delta_t
  let control_value := initial_outlet_pressure + pid_kp *
    (error + (1 / pid_ti) * integral_error + pid_td * deriv_error)
  (⟨integral_error, error⟩, control_value)

/-- State after passes `0, …, i-1`. -/
def stateAfter (p0 : ℚ) (levels : ℕ → ℚ) : ℕ → PIDState
  | 0 => initState
  | i + 1 => (pidStep p0 (stateAfter p0 levels i) (levels i)).1

/-- The gauge pressure assigned to the `water_outlet` boundary on pass `i`
(`water_pressure[i]` in the script). -/
def controlValue (p0 : ℚ) (levels : ℕ → ℚ) (i : ℕ) : ℚ :=
  (pidStep p0 (stateAfter p0 levels i) (levels i)).2

/-- The error on pass `i`: desired level minus measured level. -/
def err (levels : ℕ → ℚ) (i : ℕ) : ℚ := desired_water_level - levels i

/-- The previous pass's error (`0` before the first pass). -/
def errPrev (levels : ℕ → ℚ) : ℕ → ℚ
  | 0 => 0
  | i + 1 => err levels i

theorem stateAfter_integral (p0 : ℚ) (levels : ℕ → ℚ) (i : ℕ) :
    (stateAfter p0 levels i).integral_error =
      delta_t * ∑ k ∈ Finset.range i, err levels k := by
  induction i with
  | zero => simp [stateAfter, initState]
  | succ i ih =>
      simp only [stateAfter, pidStep, Finset.sum_range_succ, ih, err]
      ring

theorem stateAfter_error_old (p0 : ℚ) (levels : ℕ → ℚ) (i : ℕ) :
    (stateAfter p0 levels i).error_old = errPrev levels i := by
  cases i with
  | zero => simp [stateAfter, initState, errPrev]
  | succ i => simp [stateAfter, pidStep, errPrev, err]

/-- C1: on every pass `i < n` the gauge pressure assigned to `water_outlet`
equals `initial_outlet_pressure + pid_kp * (e_i + (1/pid_ti) * S_i +
pid_td * (e_i - e_prev)/delta_t)` with `S_i = delta_t * (e_0 + … + e_i)`
and `e_prev = 0` on the first pass; the base of every control value is the
fixed initial pressure `p0`, never the previously applied pressure. -/
theorem controlValue_pid_formula (p0 : ℚ) (levels : ℕ → ℚ) (i : ℕ)
    (h : i < n) :
    controlValue p0 levels i =
      p0 + pid_kp * (err levels i
        + (1 / pid_ti) * (delta_t * ∑ k ∈ Finset.range (i + 1), err levels k)
        + pid_td * (err levels i - errPrev levels i) / delta_t) := by
  unfold controlValue pidStep
  simp only [stateAfter_integral, stateAfter_error_old, err,
    Finset.sum_range_succ]
  ring

theorem controlValue_pid_formula_witness :
    2 < n ∧
    controlValue 0 (fun k => (k : ℚ)) 2 =
      0 + pid_kp * (err (fun k => (k : ℚ)) 2
        + (1 / pid_ti) *
          (delta_t * ∑ k ∈ Finset.range 3, err (fun k => (k : ℚ)) k)
        + pid_td *
          (err (fun k => (k : ℚ)) 2 - errPrev (fun k => (k : ℚ)) 2)
          / delta_t) :=
  ⟨by decide, controlValue_pid_formula 0 (fun k => (k : ℚ)) 2 (by decide)⟩

/-! C7: the order of solver requests issued by the script.  Each pass of the
loop first requests `pid_update_frequency` solver iterations
(`session.tui.solve.iterate(pid_update_frequency)`) and ends by assigning
the outlet gauge pressure; after the loop the script only plots and writes
the case file. -/

/-- A request the script sends to the solver: `iterate c` asks for `c`
solver iterations; `setPressure` assigns the outlet gauge pressure. -/
inductive SolverRequest
  | iterate (count : ℕ)
  | setPressure
deriving Repr, DecidableEq

/-- The requests issued by `for i in range(n)`: each pass emits
`iterate(pid_update_frequency)` and then the pressure assignment. -/
def loopRequests (passes freq : ℕ) : List SolverRequest :=
  (List.range passes).flatMap fun _ =>
    [SolverRequest.iterate freq, SolverRequest.setPressure]

/-- The full request trace of the script. -/
def pidTrace : List SolverRequest := loopRequests n pid_update_frequency

/-- `alternating freq l` holds when `l` is a sequence of
`iterate freq, setPressure` blocks: every pressure update is immediately
preceded by a request for exactly `freq` iterations, and no iteration
request follows the final pressure update. -/
def alternating (freq : ℕ) : List SolverRequest → Bool
  | [] => true
  | SolverRequest.iterate c :: SolverRequest.setPressure :: rest =>
      c == freq && alternating freq rest
  | _ => false

/-- C7: the script performs exactly `n = total_iterations div
pid_update_frequency = 10` pressure updates, each preceded by a request for
exactly `pid_update_frequency = 5` solver iterations since the previous
update, and no solver iteration is requested after the final update. -/
theorem pidTrace_update_schedule :
    pidTrace.count SolverRequest.setPressure
        = total_iterations / pid_update_frequency
      ∧ total_iterations / pid_update_frequency = 10
      ∧ pid_update_frequency = 5
      ∧ alternating pid_update_frequency pidTrace = true
      ∧ pidTrace.getLast? = some SolverRequest.setPressure := by
  decide

end GravitySeparatorPID

namespace DOE

/-! Shared embedding of the DOE double loops
(`examples/01-DOE-ML/FluentDOE.py` and
`examples/MixingTank-DOE/mixingTankDOE.py`): a result matrix is a total
function `ℕ → ℕ → ℚ` initialised to zero, and the loop is the list of cell
writes it performs, applied in program order. -/

/-- `M` with cell `(i, j)` set to `v`. -/
def writeCell (M : ℕ → ℕ → ℚ) (i j : ℕ) (v : ℚ) : ℕ → ℕ → ℚ :=
  fun a b => if a = i ∧ b = j then v else M a b

/-- Apply a list of writes `(i, j, v)` to `M`, first element first. -/
def applyWrites (ws : List (ℕ × ℕ × ℚ)) (M : ℕ → ℕ → ℚ) : ℕ → ℕ → ℚ :=
  ws.foldl (fun M w => writeCell M w.1 w.2.1 w.2.2) M

/-- The index pair a write targets. -/
def target (w : ℕ × ℕ × ℚ) : ℕ × ℕ := (w.1, w.2.1)

theorem applyWrites_nil (M : ℕ → ℕ → ℚ) : applyWrites [] M = M := rfl

theorem applyWrites_cons (w : ℕ × ℕ × ℚ) (ws : List (ℕ × ℕ × ℚ))
    (M : ℕ → ℕ → ℚ) :
    applyWrites (w :: ws) M = applyWrites ws (writeCell M w.1 w.2.1 w.2.2) :=
  rfl

/-- How many writes of `ws` target cell `(i, j)`. -/
def writesTo (ws : List (ℕ × ℕ × ℚ)) (i j : ℕ) : ℕ :=
  ws.countP fun w => decide (target w = (i, j))

theorem writesTo_nil (i j : ℕ) : writesTo [] i j = 0 := rfl

theorem writesTo_cons (w : ℕ × ℕ × ℚ) (ws : List (ℕ × ℕ × ℚ)) (i j : ℕ) :
    writesTo (w :: ws) i j =
      writesTo ws i j + if target w = (i, j) then 1 else 0 := by
  simp [writesTo, List.countP_cons]

/-- A cell no write targets keeps its value. -/
theorem applyWrites_not_mem (ws : List (ℕ × ℕ × ℚ)) (M : ℕ → ℕ → ℚ)
    (i j : ℕ) (h : ∀ w ∈ ws, target w ≠ (i, j)) :
    applyWrites ws M i j = M i j := by
  induction ws generalizing M with
  | nil => rfl
  | cons w ws ih =>
      rw [applyWrites_cons, ih _ (fun w hw => h w (List.mem_cons_of_mem _ hw))]
      have hw := h w (List.mem_cons_self _ _)
      simp only [writeCell, target] at hw ⊢
      rw [if_neg]
      intro ⟨hi, hj⟩
      exact hw (by rw [hi, hj])

theorem writesTo_eq_zero (ws : List (ℕ × ℕ × ℚ)) (i j : ℕ)
    (h : writesTo ws i j = 0) : ∀ w ∈ ws, target w ≠ (i, j) := by
  intro w hw hcontra
  have hpos : 0 < writesTo ws i j :=
    List.countP_pos_iff.mpr ⟨w, hw, by simp [hcontra]⟩
  omega

/-- If exactly one write in `ws` targets `(i, j)` then the final value of
cell `(i, j)` is that write's value. -/
theorem applyWrites_single (ws : List (ℕ × ℕ × ℚ)) (M : ℕ → ℕ → ℚ)
    (i j : ℕ) (v : ℚ) (hmem : (i, j, v) ∈ ws)
    (huniq : writesTo ws i j = 1) :
    applyWrites ws M i j = v := by
  induction ws generalizing M with
  | nil => cases hmem
  | cons w ws ih =>
      rcases List.mem_cons.mp hmem with heq | htail
      · subst heq
        have htgt : target (i, j, v) = (i, j) := rfl
        rw [writesTo_cons, htgt, if_pos rfl] at huniq
        have hzero : writesTo ws i j = 0 := by omega
        rw [applyWrites_cons,
          applyWrites_not_mem ws _ i j (writesTo_eq_zero ws i j hzero)]
        simp [writeCell]
      · have hmemtail : 0 < writesTo ws i j :=
          List.countP_pos_iff.mpr ⟨(i, j, v), htail, by simp [target]⟩
        rw [writesTo_cons] at huniq
        have huniq' : writesTo ws i j = 1 := by
          rcases em (target w = (i, j)) with h | h
          · rw [if_pos h] at huniq; omega
          · rw [if_neg h] at huniq; omega
        rw [applyWrites_cons, ih _ htail huniq']

/-- Row-major enumeration of the `rows × cols` index pairs. -/
def rowMajor (rows cols : ℕ) : List (ℕ × ℕ) :=
  (List.range rows).flatMap fun i => (List.range cols).map fun j => (i, j)

theorem mem_rowMajor (rows cols i j : ℕ) :
    (i, j) ∈ rowMajor rows cols ↔ i < rows ∧ j < cols := by
  simp [rowMajor, List.mem_flatMap, List.mem_map, List.mem_range]

theorem countP_pair_map_range (c x i j : ℕ) :
    ((List.range c).map fun y => (x, y)).countP
        (fun p => decide (p = (i, j)))
      = if x = i ∧ j < c then 1 else 0 := by
  induction c with
  | zero => simp
  | succ c ih =>
      rw [List.range_succ, List.map_append, List.countP_append, ih]
      simp only [List.map_cons, List.map_nil, List.countP_cons,
        List.countP_nil, Nat.zero_add, decide_eq_true_eq, Prod.mk.injEq]
      split_ifs <;> omega

theorem countP_rowMajor (rows cols i j : ℕ) :
    (rowMajor rows cols).countP (fun p => decide (p = (i, j)))
      = if i < rows ∧ j < cols then 1 else 0 := by
  induction rows with
  | zero => simp [rowMajor]
  | succ r ih =>
      have hsplit : rowMajor (r + 1) cols =
          rowMajor r cols ++ ((List.range cols).map fun y => (r, y)) := by
        simp [rowMajor, List.range_succ]
      rw [hsplit, List.countP_append, ih, countP_pair_map_range]
      split_ifs with h1 h2 h3 h3 h2 h3 h3 <;> omega

/-- The writes of a loop that visits every cell of a `rows × cols` matrix in
row-major order and writes the value `v i j` at cell `(i, j)`. -/
def cellWrites (rows cols : ℕ) (v : ℕ → ℕ → ℚ) : List (ℕ × ℕ × ℚ) :=
  (rowMajor rows cols).map fun p => (p.1, p.2, v p.1 p.2)

theorem cellWrites_map_target (rows cols : ℕ) (v : ℕ → ℕ → ℚ) :
    (cellWrites rows cols v).map target = rowMajor rows cols := by
  have hid : ∀ p ∈ rowMajor rows cols,
      ((fun w : ℕ × ℕ × ℚ => target w) ∘ fun p : ℕ × ℕ =>
        (p.1, p.2, v p.1 p.2)) p = id p := fun p _ => rfl
  simp only [cellWrites, List.map_map]
  rw [List.map_congr_left hid, List.map_id]

theorem writesTo_eq_countP_target (ws : List (ℕ × ℕ × ℚ)) (i j : ℕ) :
    writesTo ws i j
      = (ws.map target).countP fun p => decide (p = (i, j)) := by
  rw [writesTo, List.countP_map]
  rfl

theorem writesTo_cellWrites (rows cols i j : ℕ) (v : ℕ → ℕ → ℚ) :
    writesTo (cellWrites rows cols v) i j
      = if i < rows ∧ j < cols then 1 else 0 := by
  rw [writesTo_eq_countP_target, cellWrites_map_target, countP_rowMajor]

theorem mem_cellWrites (rows cols i j : ℕ) (v : ℕ → ℕ → ℚ)
    (hi : i < rows) (hj : j < cols) :
    (i, j, v i j) ∈ cellWrites rows cols v := by
  exact List.mem_map_of_mem _ ((mem_rowMajor rows cols i j).mpr ⟨hi, hj⟩)

/-- The final value of cell `(i, j)` after a row-major sweep writing
`v i j` at each cell `(i, j)` of the `rows × cols` matrix. -/
theorem applyWrites_cellWrites (rows cols i j : ℕ) (v : ℕ → ℕ → ℚ)
    (M : ℕ → ℕ → ℚ) (hi : i < rows) (hj : j < cols) :
    applyWrites (cellWrites rows cols v) M i j = v i j := by
  apply applyWrites_single _ _ _ _ _ (mem_cellWrites rows cols i j v hi hj)
  rw [writesTo_cellWrites, if_pos ⟨hi, hj⟩]

/-- `(l.enumFrom k).map (fun p => h p.1 p.2)` in index form. -/
theorem enumFrom_map_pair (l : List ℚ) (k : ℕ) {β : Type}
    (h : ℕ → ℚ → β) :
    (l.enumFrom k).map (fun p => h p.1 p.2)
      = (List.range l.length).map fun j => h (k + j) (l.getD j 0) := by
  induction l generalizing k with
  | nil => simp
  | cons a l ih =>
      simp only [List.enumFrom, List.map_cons, List.length_cons,
        List.range_succ_eq_map, List.map_map]
      rw [ih (k + 1)]
      refine congrArg₂ _ (by simp) ?_
      refine List.map_congr_left fun j _ => ?_
      have hk : k + 1 + j = k + (j + 1) := by omega
      simp [Function.comp_apply, hk]

/-- `(l.enumFrom k).flatMap (fun p => h p.1 p.2)` in index form. -/
theorem enumFrom_flatMap_pair (l : List ℚ) (k : ℕ) {β : Type}
    (h : ℕ → ℚ → List β) :
    (l.enumFrom k).flatMap (fun p => h p.1 p.2)
      = (List.range l.length).flatMap fun j => h (k + j) (l.getD j 0) := by
  induction l generalizing k with
  | nil => simp
  | cons a l ih =>
      simp only [List.enumFrom, List.flatMap_cons, List.length_cons,
        List.range_succ_eq_map, List.flatMap_map]
      rw [ih (k + 1)]
      refine congrArg₂ _ (by simp) ?_
      refine List.flatMap_congr fun j _ => ?_
      have hk : k + 1 + j = k + (j + 1) := by omega
      simp [Function.comp_apply, hk]

end DOE

namespace FluentDOE

/-! Embedding of the sweep in `examples/01-DOE-ML/FluentDOE.py`.  The remote
`compute report` operation (surface mass-averaged outlet temperature as a
function of the two inlet velocities the loop has just assigned) is an
oracle `compute : ℚ → ℚ → ℚ`. -/

def coldVelArr : List ℚ := [1/10, 2/10, 3/10, 4/10, 5/10, 6/10, 7/10]
def hotVelArr : List ℚ := [8/10, 1, 12/10, 14/10, 16/10, 18/10, 2]

/-- The writes performed by
`for idx1, coldVel in np.ndenumerate(coldVelArr): for idx2, hotVel in
np.ndenumerate(hotVelArr): … resArr[idx1][idx2] = output`. -/
def doeWrites (compute : ℚ → ℚ → ℚ) : List (ℕ × ℕ × ℚ) :=
  coldVelArr.enum.flatMap fun p =>
    hotVelArr.enum.map fun q => (p.1, q.1, compute p.2 q.2)

/-- `resArr` after both loops finish (`np.zeros` before them). -/
def resArr (compute : ℚ → ℚ → ℚ) : ℕ → ℕ → ℚ :=
  DOE.applyWrites (doeWrites compute) fun _ _ => 0

theorem doeWrites_eq_cellWrites (compute : ℚ → ℚ → ℚ) :
    doeWrites compute = DOE.cellWrites coldVelArr.length hotVelArr.length
      (fun i j => compute (coldVelArr.getD i 0) (hotVelArr.getD j 0)) := by
  have hcell : DOE.cellWrites coldVelArr.length hotVelArr.length
      (fun i j => compute (coldVelArr.getD i 0) (hotVelArr.getD j 0))
      = (List.range coldVelArr.length).flatMap fun i =>
          (List.range hotVelArr.length).map fun j =>
            (i, j, compute (coldVelArr.getD i 0) (hotVelArr.getD j 0)) := by
    simp [DOE.cellWrites, DOE.rowMajor, List.map_flatMap, List.map_map,
      Function.comp_def]
  rw [hcell, doeWrites, List.enum,
    DOE.enumFrom_flatMap_pair coldVelArr 0
      (fun i a => (hotVelArr.enumFrom 0).map fun q => (i, q.1, compute a q.2))]
  refine List.flatMap_congr fun i _ => ?_
  rw [DOE.enumFrom_map_pair hotVelArr 0
    (fun j b => (0 + i, j, compute (coldVelArr.getD i 0) b))]
  refine List.map_congr_left fun j _ => ?_
  simp

end FluentDOE

namespace MixingTankDOE

/-! Embedding of the sweep in `examples/MixingTank-DOE/mixingTankDOE.py`.
The remote torque report (a function of the viscosity and rotation speed
the loop has just configured) is an oracle `tq : ℚ → ℚ → ℚ`, applied to
`(omega[i], visc[j])`. -/

def density : ℚ := 9982/10
def imp_dia : ℚ := 36/100
def visc : List ℚ := [1/1000, 3/1000, 6/1000, 1/100, 25/1000, 5/100]
def omega : List ℚ := [1, 25/10, 6, 10, 15, 20]

/-- The literal `0.159154943` (≈ 1/(2π)) used in the script. -/
def revPerRad : ℚ := 159154943/1000000000

/-- The four result matrices the loop fills. -/
structure TankState where
  torq : ℕ → ℕ → ℚ
  power : ℕ → ℕ → ℚ
  reynolds_number : ℕ → ℕ → ℚ
  power_number : ℕ → ℕ → ℚ

/-- All four matrices start as `np.zeros`. -/
def tankInit : TankState := ⟨fun _ _ => 0, fun _ _ => 0, fun _ _ => 0, fun _ _ => 0⟩

/-- One body of the double loop at indices `(i, j)`: configure viscosity
`visc[j]` and rotation speed `omega[i]`, iterate, read the torque report
`val`, and fill the four matrices (`power_number` reads the `power` cell
written two statements earlier). -/
def tankBody (tq : ℚ → ℚ → ℚ) (s : TankState) (i j : ℕ) : TankState :=
  let val := tq (omega.getD i 0) (visc.getD j 0)
  let torq' := DOE.writeCell s.torq i j val
  let power' := DOE.writeCell s.power i j (omega.getD i 0 * val)
  let reynolds' := DOE.writeCell s.reynolds_number i j
    (density * (omega.getD i 0 * revPerRad) * imp_dia * imp_dia / visc.getD j 0)
  let powerNum' := DOE.writeCell s.power_number i j
    (power' i j / (density * (omega.getD i 0 * revPerRad) ^ 3 * imp_dia ^ 5))
  ⟨torq', power', reynolds', powerNum'⟩

/-- The state after `for i in range(len(omega)): for j in range(len(visc))`. -/
def tankRun (tq : ℚ → ℚ → ℚ) : TankState :=
  (DOE.rowMajor omega.length visc.length).foldl
    (fun s p => tankBody tq s p.1 p.2) tankInit

/-- Value written into `torq[i][j]`. -/
def torqVal (tq : ℚ → ℚ → ℚ) (i j : ℕ) : ℚ :=
  tq (omega.getD i 0) (visc.getD j 0)

/-- Value written into `power[i][j]`. -/
def powerVal (tq : ℚ → ℚ → ℚ) (i j : ℕ) : ℚ :=
  omega.getD i 0 * torqVal tq i j

/-- Value written into `reynolds_number[i][j]`. -/
def reynoldsVal (i j : ℕ) : ℚ :=
  density * (omega.getD i 0 * revPerRad) * imp_dia * imp_dia / visc.getD j 0

/-- Value written into `power_number[i][j]`. -/
def powerNumberVal (tq : ℚ → ℚ → ℚ) (i j : ℕ) : ℚ :=
  powerVal tq i j / (density * (omega.getD i 0 * revPerRad) ^ 3 * imp_dia ^ 5)

theorem tankBody_eq (tq : ℚ → ℚ → ℚ) (s : TankState) (i j : ℕ) :
    tankBody tq s i j =
      ⟨DOE.writeCell s.torq i j (torqVal tq i j),
       DOE.writeCell s.power i j (powerVal tq i j),
       DOE.writeCell s.reynolds_number i j (reynoldsVal i j),
       DOE.writeCell s.power_number i j (powerNumberVal tq i j)⟩ := by
  have hread : DOE.writeCell s.power i j (powerVal tq i j) i j
      = powerVal tq i j := by
    simp [DOE.writeCell]
  simp only [tankBody, torqVal, powerVal, reynoldsVal, powerNumberVal] at hread ⊢
  rw [hread]

theorem foldl_tankBody (tq : ℚ → ℚ → ℚ) (l : List (ℕ × ℕ)) (s : TankState) :
    l.foldl (fun s p => tankBody tq s p.1 p.2) s =
      ⟨DOE.applyWrites (l.map fun p => (p.1, p.2, torqVal tq p.1 p.2)) s.torq,
       DOE.applyWrites (l.map fun p => (p.1, p.2, powerVal tq p.1 p.2)) s.power,
       DOE.applyWrites (l.map fun p => (p.1, p.2, reynoldsVal p.1 p.2))
         s.reynolds_number,
       DOE.applyWrites (l.map fun p => (p.1, p.2, powerNumberVal tq p.1 p.2))
         s.power_number⟩ := by
  induction l generalizing s with
  | nil => rfl
  | cons p l ih =>
      rw [List.foldl_cons, tankBody_eq, ih]
      rfl

theorem tankRun_cells (tq : ℚ → ℚ → ℚ) (i j : ℕ)
    (hi : i < omega.length) (hj : j < visc.length) :
    (tankRun tq).torq i j = torqVal tq i j
      ∧ (tankRun tq).power i j = powerVal tq i j
      ∧ (tankRun tq).reynolds_number i j = reynoldsVal i j
      ∧ (tankRun tq).power_number i j = powerNumberVal tq i j := by
  rw [tankRun, foldl_tankBody]
  exact ⟨DOE.applyWrites_cellWrites _ _ _ _ _ _ hi hj,
    DOE.applyWrites_cellWrites _ _ _ _ _ _ hi hj,
    DOE.applyWrites_cellWrites _ _ _ _ _ _ hi hj,
    DOE.applyWrites_cellWrites _ _ _ _ _ _ hi hj⟩

/-- The torque writes performed by the double loop. -/
def torqWrites (tq : ℚ → ℚ → ℚ) : List (ℕ × ℕ × ℚ) :=
  DOE.cellWrites omega.length visc.length (torqVal tq)

end MixingTankDOE

/-- C2: in both DOE scripts the double loop fully populates the result
matrix: after both loops finish, cell `(i, j)` of `resArr` (mixing elbow)
holds the scalar returned by the remote compute-report call at
`(coldVelArr[i], hotVelArr[j])`, and cell `(k, l)` of `torq` (mixing tank)
holds the torque report at `(omega[k], visc[l])`; every cell is written
exactly once, and the writes enumerate the index pairs in row-major
order. -/
theorem doe_sweep_fills_every_cell_once (compute tq : ℚ → ℚ → ℚ)
    (i j k l : ℕ)
    (hij : i < FluentDOE.coldVelArr.length ∧ j < FluentDOE.hotVelArr.length)
    (hkl : k < MixingTankDOE.omega.length ∧ l < MixingTankDOE.visc.length) :
    FluentDOE.resArr compute i j
        = compute (FluentDOE.coldVelArr.getD i 0) (FluentDOE.hotVelArr.getD j 0)
      ∧ DOE.writesTo (FluentDOE.doeWrites compute) i j = 1
      ∧ (FluentDOE.doeWrites compute).map DOE.target
        = DOE.rowMajor FluentDOE.coldVelArr.length FluentDOE.hotVelArr.length
      ∧ (MixingTankDOE.tankRun tq).torq k l
        = tq (MixingTankDOE.omega.getD k 0) (MixingTankDOE.visc.getD l 0)
      ∧ DOE.writesTo (MixingTankDOE.torqWrites tq) k l = 1
      ∧ (MixingTankDOE.torqWrites tq).map DOE.target
        = DOE.rowMajor MixingTankDOE.omega.length MixingTankDOE.visc.length := by
  obtain ⟨hi, hj⟩ := hij
  obtain ⟨hk, hl⟩ := hkl
  refine ⟨?_, ?_, ?_, ?_, ?_, ?_⟩
  · rw [FluentDOE.resArr, FluentDOE.doeWrites_eq_cellWrites]
    exact DOE.applyWrites_cellWrites _ _ _ _ _ _ hi hj
  · rw [FluentDOE.doeWrites_eq_cellWrites, DOE.writesTo_cellWrites,
      if_pos ⟨hi, hj⟩]
  · rw [FluentDOE.doeWrites_eq_cellWrites, DOE.cellWrites_map_target]
  · exact (MixingTankDOE.tankRun_cells tq k l hk hl).1
  · rw [MixingTankDOE.torqWrites, DOE.writesTo_cellWrites, if_pos ⟨hk, hl⟩]
  · rw [MixingTankDOE.torqWrites, DOE.cellWrites_map_target]

theorem doe_sweep_fills_every_cell_once_witness :
    (2 < FluentDOE.coldVelArr.length ∧ 3 < FluentDOE.hotVelArr.length)
    ∧ (1 < MixingTankDOE.omega.length ∧ 4 < MixingTankDOE.visc.length)
    ∧ (FluentDOE.resArr (fun a b => a + b) 2 3
        = (FluentDOE.coldVelArr.getD 2 0) + (FluentDOE.hotVelArr.getD 3 0)
      ∧ DOE.writesTo (FluentDOE.doeWrites (fun a b => a + b)) 2 3 = 1
      ∧ (FluentDOE.doeWrites (fun a b => a + b)).map DOE.target
        = DOE.rowMajor FluentDOE.coldVelArr.length FluentDOE.hotVelArr.length
      ∧ (MixingTankDOE.tankRun (fun a b => a * b)).torq 1 4
        = (MixingTankDOE.omega.getD 1 0) * (MixingTankDOE.visc.getD 4 0)
      ∧ DOE.writesTo (MixingTankDOE.torqWrites (fun a b => a * b)) 1 4 = 1
      ∧ (MixingTankDOE.torqWrites (fun a b => a * b)).map DOE.target
        = DOE.rowMajor MixingTankDOE.omega.length MixingTankDOE.visc.length) :=
  ⟨⟨by decide, by decide⟩, ⟨by decide, by decide⟩,
    doe_sweep_fills_every_cell_once (fun a b => a + b) (fun a b => a * b)
      2 3 1 4 ⟨by decide, by decide⟩ ⟨by decide, by decide⟩⟩

namespace PowerPointReport

/-! Embedding of `adjust_picture_to_fit` from
`examples/015-PPTX-report-generation-Ryan-OConnor/powerPointReport.py`.
A picture's placeholder dimensions (`width`, `height`), image pixel size,
and position are integers (EMU respectively pixels); the crop margins and
the aspect ratios computed by the function are rationals. -/

/-- Python's `int()` on a rational: truncation toward zero. -/
def pyInt (q : ℚ) : ℤ := if 0 ≤ q then ⌊q⌋ else ⌈q⌉

structure Picture where
  width : ℤ
  height : ℤ
  image_width : ℤ
  image_height : ℤ
  left : ℤ
  top : ℤ
  crop_top : ℚ
  crop_left : ℚ
  crop_bottom : ℚ
  crop_right : ℚ
deriving Repr, DecidableEq

def adjust_picture_to_fit (picture : Picture) : Picture :=
  let available_width := picture.width
  let available_height := picture.height
  let placeholder_aspect_ratio : ℚ :=
    (available_width : ℚ) / (available_height : ℚ)
  let image_aspect_ratio : ℚ :=
    (picture.image_width : ℚ) / (picture.image_height : ℚ)
  let pos_left := picture.left
  let pos_top := picture.top
  let picture := { picture with
    crop_top := 0, crop_left := 0, crop_bottom := 0, crop_right := 0 }
  let picture :=
    if placeholder_aspect_ratio > image_aspect_ratio then
      { picture with height := available_height,
                     width := pyInt (image_aspect_ratio * (available_height : ℚ)) }
    else
      { picture with width := available_width,
                     height := pyInt ((available_width : ℚ) / image_aspect_ratio) }
  { picture with left := pos_left, top := pos_top }

end PowerPointReport

/-- C3: for positive placeholder and image dimensions,
`adjust_picture_to_fit` preserves the image aspect ratio up to integer
truncation and keeps the picture inside the placeholder: if the placeholder
aspect ratio exceeds the image aspect ratio the height is the placeholder
height and the width is `int(image_aspect_ratio * placeholder_height)`, at
most the placeholder width; otherwise the width is the placeholder width
and the height is `int(placeholder_width / image_aspect_ratio)`, at most
the placeholder height. -/
theorem adjust_picture_to_fit_fits (p : PowerPointReport.Picture)
    (hw : 0 < p.width) (hh : 0 < p.height)
    (hiw : 0 < p.image_width) (hih : 0 < p.image_height) :
    ((p.width : ℚ) / p.height > (p.image_width : ℚ) / p.image_height →
      (PowerPointReport.adjust_picture_to_fit p).height = p.height
      ∧ (PowerPointReport.adjust_picture_to_fit p).width
          = PowerPointReport.pyInt
              ((p.image_width : ℚ) / p.image_height * p.height)
      ∧ (PowerPointReport.adjust_picture_to_fit p).width ≤ p.width)
    ∧ (¬ ((p.width : ℚ) / p.height > (p.image_width : ℚ) / p.image_height) →
      (PowerPointReport.adjust_picture_to_fit p).width = p.width
      ∧ (PowerPointReport.adjust_picture_to_fit p).height
          = PowerPointReport.pyInt
              ((p.width : ℚ) / ((p.image_width : ℚ) / p.image_height))
      ∧ (PowerPointReport.adjust_picture_to_fit p).height ≤ p.height) := by
  have hhq : (0 : ℚ) < (p.height : ℚ) := by exact_mod_cast hh
  have hwq : (0 : ℚ) < (p.width : ℚ) := by exact_mod_cast hw
  have hiarq : (0 : ℚ) < (p.image_width : ℚ) / (p.image_height : ℚ) :=
    div_pos (by exact_mod_cast hiw) (by exact_mod_cast hih)
  constructor
  · intro hgt
    have hres : PowerPointReport.adjust_picture_to_fit p =
        { p with crop_top := 0, crop_left := 0, crop_bottom := 0,
                 crop_right := 0, height := p.height,
                 width := PowerPointReport.pyInt
                   ((p.image_width : ℚ) / p.image_height * (p.height : ℚ)) } := by
      rw [PowerPointReport.adjust_picture_to_fit]
      simp only [if_pos hgt]
    have hmul : (p.image_width : ℚ) / p.image_height * (p.height : ℚ)
        < (p.width : ℚ) := (lt_div_iff₀ hhq).mp hgt
    have hnn : (0 : ℚ) ≤ (p.image_width : ℚ) / p.image_height * (p.height : ℚ) :=
      le_of_lt (mul_pos hiarq hhq)
    have hfloor : PowerPointReport.pyInt
        ((p.image_width : ℚ) / p.image_height * (p.height : ℚ)) ≤ p.width := by
      rw [PowerPointReport.pyInt, if_pos hnn]
      exact le_of_lt (Int.floor_lt.mpr (by exact_mod_cast hmul))
    rw [hres]
    exact ⟨rfl, rfl, hfloor⟩
  · intro hle'
    have hle : (p.width : ℚ) / p.height ≤ (p.image_width : ℚ) / p.image_height :=
      le_of_not_lt hle'
    have hres : PowerPointReport.adjust_picture_to_fit p =
        { p with crop_top := 0, crop_left := 0, crop_bottom := 0,
                 crop_right := 0, width := p.width,
                 height := PowerPointReport.pyInt
                   ((p.width : ℚ) / ((p.image_width : ℚ) / p.image_height)) } := by
      rw [PowerPointReport.adjust_picture_to_fit]
      simp only [if_neg hle']
    have hdiv : (p.width : ℚ) / ((p.image_width : ℚ) / p.image_height)
        ≤ (p.height : ℚ) := by
      rw [div_le_iff₀ hiarq]
      have : (p.width : ℚ) ≤ (p.image_width : ℚ) / p.image_height * p.height :=
        (div_le_iff₀ hhq).mp hle
      linarith
    have hnn : (0 : ℚ) ≤ (p.width : ℚ) / ((p.image_width : ℚ) / p.image_height) :=
      le_of_lt (div_pos hwq hiarq)
    have hfloor : PowerPointReport.pyInt
        ((p.width : ℚ) / ((p.image_width : ℚ) / p.image_height)) ≤ p.height := by
      rw [PowerPointReport.pyInt, if_pos hnn]
      have := Int.floor_le_floor hdiv
      rwa [Int.floor_intCast] at this
    rw [hres]
    exact ⟨rfl, rfl, hfloor⟩

theorem adjust_picture_to_fit_fits_witness :
    (0 < (100 : ℤ) ∧ 0 < (50 : ℤ) ∧ 0 < (30 : ℤ) ∧ 0 < (20 : ℤ))
    ∧ (((100 : ℚ) / 50 > (30 : ℚ) / 20 →
      (PowerPointReport.adjust_picture_to_fit
          ⟨100, 50, 30, 20, 5, 7, 1/2, 1/3, 1/4, 1/5⟩).height = 50
      ∧ (PowerPointReport.adjust_picture_to_fit
          ⟨100, 50, 30, 20, 5, 7, 1/2, 1/3, 1/4, 1/5⟩).width
          = PowerPointReport.pyInt ((30 : ℚ) / 20 * 50)
      ∧ (PowerPointReport.adjust_picture_to_fit
          ⟨100, 50, 30, 20, 5, 7, 1/2, 1/3, 1/4, 1/5⟩).width ≤ 100)
    ∧ (¬ ((100 : ℚ) / 50 > (30 : ℚ) / 20) →
      (PowerPointReport.adjust_picture_to_fit
          ⟨100, 50, 30, 20, 5, 7, 1/2, 1/3, 1/4, 1/5⟩).width = 100
      ∧ (PowerPointReport.adjust_picture_to_fit
          ⟨100, 50, 30, 20, 5, 7, 1/2, 1/3, 1/4, 1/5⟩).height
          = PowerPointReport.pyInt ((100 : ℚ) / ((30 : ℚ) / 20))
      ∧ (PowerPointReport.adjust_picture_to_fit
          ⟨100, 50, 30, 20, 5, 7, 1/2, 1/3, 1/4, 1/5⟩).height ≤ 50)) :=
  ⟨⟨by decide, by decide, by decide, by decide⟩,
    adjust_picture_to_fit_fits ⟨100, 50, 30, 20, 5, 7, 1/2, 1/3, 1/4, 1/5⟩
      (by decide) (by decide) (by decide) (by decide)⟩

/-- C9: `adjust_picture_to_fit` restores the picture's position (`left`
and `top` equal their values before the call), zeroes all four crop
margins, and modifies no attribute of the picture other than `width`,
`height`, the four crop margins, and `left`/`top` (in this embedding the
only other attributes are the image dimensions, which are unchanged). -/
theorem adjust_picture_to_fit_frame (p : PowerPointReport.Picture) :
    (PowerPointReport.adjust_picture_to_fit p).left = p.left
    ∧ (PowerPointReport.adjust_picture_to_fit p).top = p.top
    ∧ (PowerPointReport.adjust_picture_to_fit p).crop_top = 0
    ∧ (PowerPointReport.adjust_picture_to_fit p).crop_left = 0
    ∧ (PowerPointReport.adjust_picture_to_fit p).crop_bottom = 0
    ∧ (PowerPointReport.adjust_picture_to_fit p).crop_right = 0
    ∧ (PowerPointReport.adjust_picture_to_fit p).image_width = p.image_width
    ∧ (PowerPointReport.adjust_picture_to_fit p).image_height
        = p.image_height := by
  rw [PowerPointReport.adjust_picture_to_fit]
  split <;> exact ⟨rfl, rfl, rfl, rfl, rfl, rfl, rfl, rfl⟩

/-- C10: after the mixing-tank sweep, the three derived matrices are
determined cell-by-cell by the torque matrix and the parameter arrays:
`power[i][j] = omega[i] * torq[i][j]`,
`reynolds_number[i][j] = density * (omega[i]*0.159154943) * imp_dia^2 / visc[j]`,
`power_number[i][j] = power[i][j] / (density * (omega[i]*0.159154943)^3 * imp_dia^5)`. -/
theorem mixing_tank_derived_matrices (tq : ℚ → ℚ → ℚ) (i j : ℕ)
    (hi : i < MixingTankDOE.omega.length)
    (hj : j < MixingTankDOE.visc.length) :
    (MixingTankDOE.tankRun tq).power i j
        = MixingTankDOE.omega.getD i 0 * (MixingTankDOE.tankRun tq).torq i j
      ∧ (MixingTankDOE.tankRun tq).reynolds_number i j
        = MixingTankDOE.density
          * (MixingTankDOE.omega.getD i 0 * MixingTankDOE.revPerRad)
          * MixingTankDOE.imp_dia ^ 2 / MixingTankDOE.visc.getD j 0
      ∧ (MixingTankDOE.tankRun tq).power_number i j
        = (MixingTankDOE.tankRun tq).power i j
          / (MixingTankDOE.density
            * (MixingTankDOE.omega.getD i 0 * MixingTankDOE.revPerRad) ^ 3
            * MixingTankDOE.imp_dia ^ 5) := by
  obtain ⟨ht, hp, hr, hn⟩ := MixingTankDOE.tankRun_cells tq i j hi hj
  refine ⟨?_, ?_, ?_⟩
  · rw [hp, ht]
    rfl
  · rw [hr, MixingTankDOE.reynoldsVal]
    ring
  · rw [hn, hp]
    rfl

theorem mixing_tank_derived_matrices_witness :
    0 < MixingTankDOE.omega.length ∧ 1 < MixingTankDOE.visc.length
    ∧ ((MixingTankDOE.tankRun (fun a b => a * b)).power 0 1
        = MixingTankDOE.omega.getD 0 0
          * (MixingTankDOE.tankRun (fun a b => a * b)).torq 0 1
      ∧ (MixingTankDOE.tankRun (fun a b => a * b)).reynolds_number 0 1
        = MixingTankDOE.density
          * (MixingTankDOE.omega.getD 0 0 * MixingTankDOE.revPerRad)
          * MixingTankDOE.imp_dia ^ 2 / MixingTankDOE.visc.getD 1 0
      ∧ (MixingTankDOE.tankRun (fun a b => a * b)).power_number 0 1
        = (MixingTankDOE.tankRun (fun a b => a * b)).power 0 1
          / (MixingTankDOE.density
            * (MixingTankDOE.omega.getD 0 0 * MixingTankDOE.revPerRad) ^ 3
            * MixingTankDOE.imp_dia ^ 5)) :=
  ⟨by decide, by decide,
    mixing_tank_derived_matrices (fun a b => a * b) 0 1 (by decide) (by decide)⟩

namespace ExhaustManifold

/-! Embedding of the ordering of dispatches and future resolutions in
`examples/AnsysLab-exhaust-manifold/exhaust_system11.py` (lines 853-959):
the script's top level is a fixed sequence of vendor calls, modelled as the
list of events it performs in program order. -/

def inlet_velocities : List ℚ := [12/10, 14/10]
def inlet_turbulent_intensities : List ℚ := [5/100, 15/100]

/-- One `async_create_solver` call is dispatched per combination of the two
parameter lists, in nested-loop order. -/
def solverParams : List (ℚ × ℚ) :=
  inlet_velocities.flatMap fun v =>
    inlet_turbulent_intensities.map fun ti => (v, ti)

/-- The events of the script's top level, in program order.  `…Dispatched`
events are the asynchronous calls; `…Resolved` events are the `.result()`
calls on the corresponding futures. -/
inductive ExhaustEvent
  | createMeshingDispatched
  | createSolverDispatched (velocity intensity : ℚ)
  | meshingCreateResolved
  | runMeshingDispatched
  | solverCreateResolved (k : ℕ)
  | meshingRunResolved
  | transferCase
  | runSolverDispatched (k : ℕ)
  | solverRunResolved (k : ℕ)
  | collateResults
deriving Repr, DecidableEq

open ExhaustEvent

/-- The trace of the script: dispatch meshing creation, dispatch one solver
creation per parameter combination, wait on the meshing-creation future,
dispatch the meshing run, wait on every solver-creation future (lines
900-904), wait on the meshing-run future (line 908), transfer the mesh to
the solvers (line 911), dispatch every solver run, wait on every solver-run
future (lines 928-929), then collate the results (lines 949-959). -/
def exhaustTrace : List ExhaustEvent :=
  [createMeshingDispatched]
  ++ (solverParams.map fun p => createSolverDispatched p.1 p.2)
  ++ [meshingCreateResolved, runMeshingDispatched]
  ++ ((List.range solverParams.length).map solverCreateResolved)
  ++ [meshingRunResolved, transferCase]
  ++ ((List.range solverParams.length).map runSolverDispatched)
  ++ ((List.range solverParams.length).map solverRunResolved)
  ++ [collateResults]

/-- Whether an event is a solver-session creation dispatch. -/
def isCreateSolver : ExhaustEvent → Bool
  | createSolverDispatched _ _ => true
  | _ => false

/-- The part of the trace strictly before the mesh transfer. -/
def beforeTransfer : List ExhaustEvent :=
  exhaustTrace.takeWhile fun e => decide (e ≠ transferCase)

/-- The part of the trace strictly before the collation of results. -/
def beforeCollate : List ExhaustEvent :=
  exhaustTrace.takeWhile fun e => decide (e ≠ collateResults)

end ExhaustManifold

/-- C4: the cluster example creates one remote solver session per
combination of inlet velocity and turbulent intensity (4 for the 2 × 2
lists), resolves every solver-creation future and the meshing-run future
before the mesh transfer, and resolves every solver-run future before the
results are collated; the transfer and the collation occur exactly once,
after those futures. -/
theorem exhaust_futures_resolved_before_use :
    ExhaustManifold.solverParams.length
        = ExhaustManifold.inlet_velocities.length
          * ExhaustManifold.inlet_turbulent_intensities.length
      ∧ ExhaustManifold.solverParams.length = 4
      ∧ (ExhaustManifold.exhaustTrace.filter
          ExhaustManifold.isCreateSolver).length = 4
      ∧ (∀ k, k < 4 →
          ExhaustManifold.ExhaustEvent.solverCreateResolved k
            ∈ ExhaustManifold.beforeTransfer)
      ∧ ExhaustManifold.ExhaustEvent.meshingRunResolved
          ∈ ExhaustManifold.beforeTransfer
      ∧ (∀ k, k < 4 →
          ExhaustManifold.ExhaustEvent.solverRunResolved k
            ∈ ExhaustManifold.beforeCollate)
      ∧ ExhaustManifold.exhaustTrace.count
          ExhaustManifold.ExhaustEvent.transferCase = 1
      ∧ ExhaustManifold.exhaustTrace.count
          ExhaustManifold.ExhaustEvent.collateResults = 1 := by
  decide

namespace ErrorHandling

/-! Corpus-wide inventory of the exception handlers, transliterated from
the `try`/`except` blocks of the source files (one entry per `except`
clause; commented-out handlers are not handlers). -/

/-- The exception class an `except` clause names (`bareExcept` for a bare
`except:`). -/
inductive CaughtClass
  | importError
  | exceptionClass
  | attributeError
  | bareExcept
deriving Repr, DecidableEq

/-- What a handler body does. -/
inductive HandlerAction
  /-- imports the alternate module path of the same vendor library -/
  | importFallback
  /-- `print(e)`: prints the caught exception itself -/
  | printException
  /-- prints a message that is not the caught exception -/
  | printOtherMessage
  /-- `continue` with nothing printed -/
  | continueSilently
deriving Repr, DecidableEq

structure Handler where
  script : String
  caught : CaughtClass
  action : HandlerAction
deriving Repr, DecidableEq

/-- Every `except` clause in the corpus, by script, caught class, and
handler body. -/
def corpusHandlers : List Handler := [
  -- parametric.py line 4
  ⟨"examples/004-Fluent-Parametric-Mainak-Kundu/parametric.py",
    CaughtClass.importError, HandlerAction.importFallback⟩,
  -- ahmed_body_workflow.py line 129
  ⟨"examples/012-Ahmed-Body-Simulation-Abhishek-Chitwar/ahmed_body_workflow.py",
    CaughtClass.importError, HandlerAction.importFallback⟩,
  -- exhaust_system11.py line 903: `except: print("error")`
  ⟨"examples/AnsysLab-exhaust-manifold/exhaust_system11.py",
    CaughtClass.bareExcept, HandlerAction.printOtherMessage⟩,
  -- 00-ahmed_body_workflow.py line 43
  ⟨"examples/00-released_examples/00-ahmed_body_workflow.py",
    CaughtClass.importError, HandlerAction.importFallback⟩,
  -- 02-parametric.py line 13
  ⟨"examples/00-released_examples/02-parametric.py",
    CaughtClass.importError, HandlerAction.importFallback⟩,
  -- pyFluentGraphics.py line 53
  ⟨"examples/Graphics-Demo/pyFluentGraphics.py",
    CaughtClass.importError, HandlerAction.importFallback⟩,
  -- pyFluentGraphics.py lines 79, 85, 90: `except Exception as e: print(e)`
  ⟨"examples/Graphics-Demo/pyFluentGraphics.py",
    CaughtClass.exceptionClass, HandlerAction.printException⟩,
  ⟨"examples/Graphics-Demo/pyFluentGraphics.py",
    CaughtClass.exceptionClass, HandlerAction.printException⟩,
  ⟨"examples/Graphics-Demo/pyFluentGraphics.py",
    CaughtClass.exceptionClass, HandlerAction.printException⟩,
  -- powerPointReport.py line 60: `except AttributeError: continue`
  ⟨"examples/015-PPTX-report-generation-Ryan-OConnor/powerPointReport.py",
    CaughtClass.attributeError, HandlerAction.continueSilently⟩,
  -- powerPointReport.py line 73: prints the placeholder type, not the exception
  ⟨"examples/015-PPTX-report-generation-Ryan-OConnor/powerPointReport.py",
    CaughtClass.attributeError, HandlerAction.printOtherMessage⟩,
  -- ablation.py line 274
  ⟨"examples/017-Ablation-tutorial-Ryan-OConnor/ablation.py",
    CaughtClass.importError, HandlerAction.importFallback⟩,
  -- brake.py line 247
  ⟨"examples/014-Brake-Thermal-PyVista-Matplotlib-Manoj-Vani/brake.py",
    CaughtClass.importError, HandlerAction.importFallback⟩,
  -- 03-powerPointReport.py line 96: `except AttributeError: continue`
  ⟨"examples/01-beta_examples/03-powerPointReport.py",
    CaughtClass.attributeError, HandlerAction.continueSilently⟩,
  -- 03-powerPointReport.py line 109: prints the placeholder type
  ⟨"examples/01-beta_examples/03-powerPointReport.py",
    CaughtClass.attributeError, HandlerAction.printOtherMessage⟩,
  -- demo22R2.py line 478
  ⟨"examples/018-PyFluent-ACE-Training-at-22R2-Sean-Pearson/demo22R2.py",
    CaughtClass.importError, HandlerAction.importFallback⟩,
  -- pyFluentGraphics.py line 67
  ⟨"examples/005-Graphics-Demo-Aseem-Jain/pyFluentGraphics.py",
    CaughtClass.importError, HandlerAction.importFallback⟩,
  -- pyFluentGraphics.py lines 96, 102, 107: `except Exception as e: print(e)`
  ⟨"examples/005-Graphics-Demo-Aseem-Jain/pyFluentGraphics.py",
    CaughtClass.exceptionClass, HandlerAction.printException⟩,
  ⟨"examples/005-Graphics-Demo-Aseem-Jain/pyFluentGraphics.py",
    CaughtClass.exceptionClass, HandlerAction.printException⟩,
  ⟨"examples/005-Graphics-Demo-Aseem-Jain/pyFluentGraphics.py",
    CaughtClass.exceptionClass, HandlerAction.printException⟩]

/-- The property the claim asserts of every handler: it is either an
`ImportError` fallback between alternate vendor module paths, or an
`except Exception` block that prints the caught exception itself. -/
def claimedHandlerShape (h : Handler) : Bool :=
  (h.caught == CaughtClass.importError
      && h.action == HandlerAction.importFallback)
    || (h.caught == CaughtClass.exceptionClass
      && h.action == HandlerAction.printException)

/-- The shapes actually present in the corpus: additionally
`except AttributeError` handlers (one continuing silently, one printing a
message that is not the exception) in the two PPTX-report scripts, and one
bare `except:` printing the fixed string `"error"` in the cluster
example. -/
def actualHandlerShape (h : Handler) : Bool :=
  claimedHandlerShape h
    || (h.caught == CaughtClass.attributeError
      && (h.action == HandlerAction.continueSilently
        || h.action == HandlerAction.printOtherMessage))
    || (h.caught == CaughtClass.bareExcept
      && h.action == HandlerAction.printOtherMessage)

end ErrorHandling

/-- C5 counterexample: the corpus contains handlers outside the claimed
shapes — the cluster example's bare `except:` printing `"error"` (not the
exception), and the PPTX-report script's `except AttributeError: continue`
which swallows the error without printing anything — so it is false that
error handling consists only of `ImportError` fallbacks and
exception-printing `except Exception` blocks. -/
theorem corpus_error_handling_claim_false :
    (ErrorHandling.Handler.mk
        "examples/AnsysLab-exhaust-manifold/exhaust_system11.py"
        ErrorHandling.CaughtClass.bareExcept
        ErrorHandling.HandlerAction.printOtherMessage
      ∈ ErrorHandling.corpusHandlers)
    ∧ (ErrorHandling.Handler.mk
        "examples/015-PPTX-report-generation-Ryan-OConnor/powerPointReport.py"
        ErrorHandling.CaughtClass.attributeError
        ErrorHandling.HandlerAction.continueSilently
      ∈ ErrorHandling.corpusHandlers)
    ∧ ¬ (∀ h ∈ ErrorHandling.corpusHandlers,
        ErrorHandling.claimedHandlerShape h = true) := by
  decide

/-- C5 amended: every exception handler in the corpus is an `ImportError`
fallback between alternate vendor module paths, an `except Exception`
block printing the caught exception (graphics demos), an
`except AttributeError` handler in a PPTX-report script (one continues
silently, one prints a message that is not the exception), or the cluster
example's bare `except:` printing the fixed string `"error"`. -/
theorem corpus_error_handling_inventory :
    ∀ h ∈ ErrorHandling.corpusHandlers,
      ErrorHandling.actualHandlerShape h = true := by
  decide

theorem corpus_error_handling_inventory_witness :
    (ErrorHandling.Handler.mk
        "examples/AnsysLab-exhaust-manifold/exhaust_system11.py"
        ErrorHandling.CaughtClass.bareExcept
        ErrorHandling.HandlerAction.printOtherMessage
      ∈ ErrorHandling.corpusHandlers)
    ∧ ErrorHandling.actualHandlerShape
        (ErrorHandling.Handler.mk
          "examples/AnsysLab-exhaust-manifold/exhaust_system11.py"
          ErrorHandling.CaughtClass.bareExcept
          ErrorHandling.HandlerAction.printOtherMessage) = true :=
  ⟨by decide,
    corpus_error_handling_inventory
      (ErrorHandling.Handler.mk
        "examples/AnsysLab-exhaust-manifold/exhaust_system11.py"
        ErrorHandling.CaughtClass.bareExcept
        ErrorHandling.HandlerAction.printOtherMessage)
      (by decide)⟩

namespace AsyncUse

/-! Corpus-wide inventory of `@asynchronous` decorator use: one entry per
source file, listing the functions it decorates with `asynchronous` (the
vendor decorator that makes a call return a future instead of blocking). -/

structure ScriptAsyncUse where
  script : String
  asyncDecorated : List String
deriving Repr, DecidableEq

def corpusScripts : List ScriptAsyncUse := [
  ⟨"examples/00-intro/demo.py", []⟩,
  ⟨"examples/00-released_examples/00-ablation.py", []⟩,
  ⟨"examples/00-released_examples/00-ahmed_body_workflow.py", []⟩,
  ⟨"examples/00-released_examples/01-brake.py", []⟩,
  ⟨"examples/00-released_examples/02-parametric.py", []⟩,
  ⟨"examples/00-released_examples/03-CHT.py", []⟩,
  ⟨"examples/00-released_examples/07-species_combustor.py", []⟩,
  ⟨"examples/001-Intro-Demo-Mixing-Elbow-Mainak-Kundu/demo.py", []⟩,
  ⟨"examples/002-DOE-ML-Mixing-Elbow-Shitanshu-Gohel/FluentDOE.py", []⟩,
  ⟨"examples/003-Tyler-Sofrin-Modes-Compressor-Ryan-OConnor/TylerSofrinModes.py", []⟩,
  ⟨"examples/004-Fluent-Parametric-Mainak-Kundu/parametric.py", []⟩,
  ⟨"examples/005-Graphics-Demo-Aseem-Jain/pyFluentGraphics.py", ["iterate"]⟩,
  ⟨"examples/007-MixingTank-WorkFlow-Sravan-Kumar/mixingTank.py", []⟩,
  ⟨"examples/008-MixingTank-DOE-Sravan-Kumar/mixingTankDOE.py", []⟩,
  ⟨"examples/009-Separator-Collection-Efficiency-Sravan-Kumar/oil_separator.py", []⟩,
  ⟨"examples/01-DOE-ML/FluentDOE.py", []⟩,
  ⟨"examples/01-beta_examples/00-ablation.py", []⟩,
  ⟨"examples/01-beta_examples/03-powerPointReport.py", []⟩,
  ⟨"examples/010-Steady-Vortex-VOF-Sravan-Kumar/steady_vortex.py", []⟩,
  ⟨"examples/011-Gravity-Separator-PID-Sravan-Kumar/gravitySeparatorPID.py", []⟩,
  ⟨"examples/012-Ahmed-Body-Simulation-Abhishek-Chitwar/ahmed_body_workflow.py", []⟩,
  ⟨"examples/013-Remote-Execution-in-Cluster-Pablo-Aguado/remote_parallel.py", []⟩,
  ⟨"examples/014-Brake-Thermal-PyVista-Matplotlib-Manoj-Vani/brake.py", []⟩,
  ⟨"examples/015-PPTX-report-generation-Ryan-OConnor/powerPointReport.py", []⟩,
  ⟨"examples/016-Dash-App-for-Post-processing-Ryan-OConnor/CreatePPTX.py", []⟩,
  ⟨"examples/016-Dash-App-for-Post-processing-Ryan-OConnor/DashApp.py", []⟩,
  ⟨"examples/017-Ablation-tutorial-Ryan-OConnor/ablation.py", []⟩,
  ⟨"examples/018-PyFluent-ACE-Training-at-22R2-Sean-Pearson/demo22R2.py", []⟩,
  ⟨"examples/020-CHT-Shitanshu-Gohel/CHT_Demo.py", []⟩,
  ⟨"examples/021-Excel-Monitor-Points-Zoran-Dragojlovic/excelCustomization.py", []⟩,
  ⟨"examples/Ablation-tutorial/ablation.py", []⟩,
  ⟨"examples/AnsysLab-exhaust-manifold/exhaust_system11.py",
    ["read_mesh_into_solver", "async_run_meshing", "async_create_meshing",
     "async_run_solver", "async_create_solver"]⟩,
  ⟨"examples/Brake-Thermal-PyVista-Matplotlib/brake.py", []⟩,
  ⟨"examples/CHT/CHT_Demo.py", []⟩,
  ⟨"examples/Graphics-Demo/pyFluentGraphics.py", ["iterate"]⟩,
  ⟨"examples/MixingTank-DOE/mixingTankDOE.py", []⟩,
  ⟨"examples/Separator-Collection-Efficiency/oil_separator.py", []⟩,
  ⟨"examples/Steady-Vortex-VOF/steady_vortex.py", []⟩]

/-- The scripts that decorate at least one function with `asynchronous`. -/
def scriptsUsingAsync : List ScriptAsyncUse :=
  corpusScripts.filter fun s => !s.asyncDecorated.isEmpty

end AsyncUse

/-- C8 counterexample: three scripts of the corpus, not exactly one, use
the `asynchronous` decorator to make solver calls non-blocking (the two
graphics demos decorate `iterate`; the cluster example decorates its
meshing/solver dispatch helpers). -/
theorem async_decorator_not_exactly_one_script :
    AsyncUse.scriptsUsingAsync.length = 3
    ∧ ¬ AsyncUse.scriptsUsingAsync.length = 1 := by
  decide

/-- C8 amended: exactly three scripts use the `asynchronous` decorator —
both copies of the graphics demo (decorating `iterate`, so solver
iteration does not block the script) and the cluster example (decorating
its meshing- and solver-dispatch helpers, including the `async_run_solver`
that performs the solver iterations); no other script in the corpus uses
it, so in every other script solver calls block. -/
theorem async_decorator_exactly_three_scripts :
    AsyncUse.scriptsUsingAsync =
      [⟨"examples/005-Graphics-Demo-Aseem-Jain/pyFluentGraphics.py",
          ["iterate"]⟩,
       ⟨"examples/AnsysLab-exhaust-manifold/exhaust_system11.py",
          ["read_mesh_into_solver", "async_run_meshing",
           "async_create_meshing", "async_run_solver",
           "async_create_solver"]⟩,
       ⟨"examples/Graphics-Demo/pyFluentGraphics.py", ["iterate"]⟩]
    ∧ AsyncUse.corpusScripts.length = 38 := by
  decide

namespace GraphicsDemo

/-! Embedding of the `contour-1` fragment of
`examples/005-Graphics-Demo-Aseem-Jain/pyFluentGraphics.py` (lines 78-108).
The three invalid assignments to `contour1.surfaces_list` are issued inside
`try: … except Exception as e: print(e)` blocks. -/

/-- A Python value assigned to `surfaces_list` in the demo: an integer, a
string, a list, or a class object such as `bool`. -/
inductive PyVal
  | int (n : ℤ)
  | str (s : String)
  | list (elems : List PyVal)
  | typeObj (name : String)

/-- The demo's contour state: its `field` and its `surfaces_list`. -/
structure Contour where
  field : Option String
  surfaces_list : List String
deriving Repr, DecidableEq

/-- The element as a string, when it is one. -/
def asStr : PyVal → Option String
  | PyVal.str s => some s
  | _ => none

/-- Modelled from the spec: the remote API's validation of a
`surfaces_list` assignment.  The validation lives in the vendor client
library, which is not part of this repository; per the spec the demo's
`try`/`except` blocks "illustrate the remote API's validation errors", so
the setter is modelled as accepting exactly a list of strings naming
existing surfaces, raising a validation error otherwise and leaving the
object unchanged. -/
def setSurfacesList (allowed : List String) (c : Contour) (v : PyVal) :
    Except String Contour :=
  match v with
  | PyVal.list elems =>
      match elems.mapM asStr with
      | none => Except.error "value must be a list of strings"
      | some names =>
          if names.all fun s => allowed.contains s then
            Except.ok { c with surfaces_list := names }
          else
            Except.error "no such surface"
  | _ => Except.error "value must be a list of strings"

/-- `try: contour1.surfaces_list = v except Exception as e: print(e)`:
on success the contour is updated; on error the exception message is
printed, the contour is unchanged, and the script continues.  Returns the
contour afterwards and the list of printed messages. -/
def tryAssign (allowed : List String) (c : Contour) (v : PyVal) :
    Contour × List String :=
  match setSurfacesList allowed c v with
  | Except.ok c' => (c', [])
  | Except.error e => (c, [e])

/-- The three invalid values the demo assigns:
`1`, `[bool]`, and `["x"]`. -/
def invalidAssignments : List PyVal :=
  [PyVal.int 1, PyVal.list [PyVal.typeObj "bool"], PyVal.list [PyVal.str "x"]]

/-- The contour's previously established state:
`contour1.field = "temperature"; contour1.surfaces_list = ["symmetry"]`. -/
def contour1 : Contour := ⟨some "temperature", ["symmetry"]⟩

/-- The three guarded assignments in sequence, collecting the printed
messages. -/
def runInvalidAssignments (allowed : List String) : Contour × List String :=
  invalidAssignments.foldl
    (fun acc v =>
      let r := tryAssign allowed acc.1 v
      (r.1, acc.2 ++ r.2))
    (contour1, [])

end GraphicsDemo

/-- C6: for each of the three invalid assignments to `contour-1`'s
`surfaces_list` (an integer, a list containing a non-string element, and
the name of a non-existent surface `"x"`), the exception raised by the
assignment is caught and printed and the script continues to the next
statement; the contour's previously established state
(field `"temperature"`, `surfaces_list ["symmetry"]`) is unchanged by each
failed assignment. -/
theorem graphics_demo_invalid_assignments_print_and_preserve
    (allowed : List String) (hx : "x" ∉ allowed) :
    (GraphicsDemo.tryAssign allowed GraphicsDemo.contour1
        (GraphicsDemo.PyVal.int 1)).1 = GraphicsDemo.contour1
    ∧ (GraphicsDemo.tryAssign allowed GraphicsDemo.contour1
        (GraphicsDemo.PyVal.list [GraphicsDemo.PyVal.typeObj "bool"])).1
      = GraphicsDemo.contour1
    ∧ (GraphicsDemo.tryAssign allowed GraphicsDemo.contour1
        (GraphicsDemo.PyVal.list [GraphicsDemo.PyVal.str "x"])).1
      = GraphicsDemo.contour1
    ∧ (GraphicsDemo.runInvalidAssignments allowed).1 = GraphicsDemo.contour1
    ∧ (GraphicsDemo.runInvalidAssignments allowed).2.length = 3 := by
  have hcontains : allowed.contains "x" = false := by
    cases hc : allowed.contains "x" with
    | false => rfl
    | true => exact absurd (by simpa using hc) hx
  have hcond : (List.all ["x"] fun s => allowed.contains s) = false := by
    rw [List.all_cons, List.all_nil, hcontains]
    rfl
  have hset : GraphicsDemo.setSurfacesList allowed GraphicsDemo.contour1
      (GraphicsDemo.PyVal.list [GraphicsDemo.PyVal.str "x"])
      = Except.error "no such surface" := by
    have hrfl : GraphicsDemo.setSurfacesList allowed GraphicsDemo.contour1
        (GraphicsDemo.PyVal.list [GraphicsDemo.PyVal.str "x"])
        = if (List.all ["x"] fun s => allowed.contains s) = true then
            Except.ok { GraphicsDemo.contour1 with surfaces_list := ["x"] }
          else Except.error "no such surface" := rfl
    rw [hrfl, hcond]
    rfl
  have h1 : GraphicsDemo.tryAssign allowed GraphicsDemo.contour1
      (GraphicsDemo.PyVal.int 1)
      = (GraphicsDemo.contour1, ["value must be a list of strings"]) := rfl
  have h2 : GraphicsDemo.tryAssign allowed GraphicsDemo.contour1
      (GraphicsDemo.PyVal.list [GraphicsDemo.PyVal.typeObj "bool"])
      = (GraphicsDemo.contour1, ["value must be a list of strings"]) := rfl
  have h3 : GraphicsDemo.tryAssign allowed GraphicsDemo.contour1
      (GraphicsDemo.PyVal.list [GraphicsDemo.PyVal.str "x"])
      = (GraphicsDemo.contour1, ["no such surface"]) := by
    unfold GraphicsDemo.tryAssign
    rw [hset]
  have hrun : GraphicsDemo.runInvalidAssignments allowed
      = (GraphicsDemo.contour1,
          ["value must be a list of strings",
           "value must be a list of strings", "no such surface"]) := by
    rw [GraphicsDemo.runInvalidAssignments]
    simp only [GraphicsDemo.invalidAssignments, List.foldl_cons,
      List.foldl_nil]
    rw [h1]
    dsimp only
    rw [h2]
    dsimp only
    rw [h3]
    rfl
  refine ⟨by rw [h1], by rw [h2], by rw [h3], by rw [hrun], ?_⟩
  rw [hrun]
  rfl

theorem graphics_demo_invalid_assignments_witness :
    "x" ∉ ["symmetry"]
    ∧ ((GraphicsDemo.tryAssign ["symmetry"] GraphicsDemo.contour1
        (GraphicsDemo.PyVal.int 1)).1 = GraphicsDemo.contour1
    ∧ (GraphicsDemo.tryAssign ["symmetry"] GraphicsDemo.contour1
        (GraphicsDemo.PyVal.list [GraphicsDemo.PyVal.typeObj "bool"])).1
      = GraphicsDemo.contour1
    ∧ (GraphicsDemo.tryAssign ["symmetry"] GraphicsDemo.contour1
        (GraphicsDemo.PyVal.list [GraphicsDemo.PyVal.str "x"])).1
      = GraphicsDemo.contour1
    ∧ (GraphicsDemo.runInvalidAssignments ["symmetry"]).1
      = GraphicsDemo.contour1
    ∧ (GraphicsDemo.runInvalidAssignments ["symmetry"]).2.length = 3) :=
  ⟨by decide,
    graphics_demo_invalid_assignments_print_and_preserve ["symmetry"]
      (by decide)⟩
